import Mathlib

/-!
Verification of the spatialdata spatial-query subsystem specification.

The repository excerpt contains the container constructor
(`spatialdata/_core/_spatialdata.py`), the IO writer
(`spatialdata/_io/write.py`) and the test suite of the spatial-query core
(`tests/_core/test_spatial_query.py`).  The spatial-query core itself
(`_spatial_query.py`, `transformations.py`, `_spatialdata_ops.py`) is not
part of the excerpt, so its operations are modelled from the specification
(each such definition says so in its doc comment); the container
constructor is embedded from the source.

Coordinates are modelled as rationals (the numeric values exercised by the
spec and the tests are exact), arrays as shape-indexed functions, Python
dicts as insertion-ordered association lists, and raised exceptions as
`Except` errors carrying the exception class name.
-/

set_option autoImplicit false

namespace SpatialDataSpec

/-- The axis names used by spatialdata elements: the channel axis `c` and
the spatial axes `x`, `y`, `z`. -/
inductive Axis where
  | c
  | x
  | y
  | z
  deriving DecidableEq, Repr

/-- A spatial axis is one of `x`, `y`, `z`; the channel axis `c` is not
spatial. -/
def Axis.isSpatial : Axis → Bool
  | .c => false
  | .x => true
  | .y => true
  | .z => true

/-- Modelled from the spec: `BoundingBoxRequest` is an immutable value with
an ordered tuple of axes, per-axis min/max coordinates and a target
coordinate-system name. -/
structure BoundingBoxRequest where
  axes : List Axis
  min_coordinate : List ℚ
  max_coordinate : List ℚ
  target_coordinate_system : String
  deriving DecidableEq, Repr

/-- Modelled from the spec: constructing a `BoundingBoxRequest` validates,
in `__post_init__`, that all axes are spatial, that `min_coordinate`,
`max_coordinate` and `axes` have the same length, and that
`min_coordinate[i] <= max_coordinate[i]` for every `i`; each violation
raises a `ValueError`. -/
def mkBoundingBoxRequest (axes : List Axis) (min_coordinate max_coordinate : List ℚ)
    (target_coordinate_system : String) : Except String BoundingBoxRequest :=
  if ¬ axes.all Axis.isSpatial then
    .error "ValueError: axes must be spatial"
  else if min_coordinate.length ≠ axes.length ∨ max_coordinate.length ≠ axes.length then
    .error "ValueError: coordinates must have the same length as axes"
  else if ¬ (List.zip min_coordinate max_coordinate).all (fun p => decide (p.1 ≤ p.2)) then
    .error "ValueError: min_coordinate must be less than or equal to max_coordinate"
  else
    .ok ⟨axes, min_coordinate, max_coordinate, target_coordinate_system⟩

/-- The fields of a `BoundingBoxRequest`, as assignment targets. -/
inductive RequestField where
  | axesField
  | minCoordinateField
  | maxCoordinateField
  | targetCoordinateSystemField
  deriving DecidableEq, Repr

/-- A value one could try to assign to a field of a request. -/
inductive AttrValue where
  | axesVal (a : List Axis)
  | coordsVal (v : List ℚ)
  | nameVal (s : String)
  deriving DecidableEq, Repr

/-- Modelled from the spec: `BoundingBoxRequest` is a frozen dataclass, so
any attempted field assignment raises `FrozenInstanceError`; the returned
state is the request after the attempt, which is unchanged. -/
def BoundingBoxRequest.setAttr (r : BoundingBoxRequest) (_f : RequestField)
    (_v : AttrValue) : Except String Unit × BoundingBoxRequest :=
  (.error "FrozenInstanceError", r)

/-- The spec-side validity predicate on a request's raw fields: all axes
spatial, equal lengths, and elementwise `min ≤ max`. -/
def validRequestFields (axes : List Axis) (min_coordinate max_coordinate : List ℚ) : Prop :=
  (∀ a ∈ axes, a.isSpatial = true) ∧
    min_coordinate.length = axes.length ∧
    max_coordinate.length = axes.length ∧
    ∀ i, i < axes.length → min_coordinate.getD i 0 ≤ max_coordinate.getD i 0

instance (axes : List Axis) (mins maxs : List ℚ) :
    Decidable (validRequestFields axes mins maxs) := by
  unfold validRequestFields
  exact inferInstance

/-- C1: construction of a `BoundingBoxRequest` succeeds exactly when all
axes are spatial, the three field lengths agree, and
`min_coordinate[i] ≤ max_coordinate[i]` for every axis; any violation
yields a `ValueError`-class error instead. -/
theorem boundingBoxRequest_validation (axes : List Axis)
    (mins maxs : List ℚ) (tgt : String) :
    ((∃ r, mkBoundingBoxRequest axes mins maxs tgt = .ok r) ↔
      validRequestFields axes mins maxs) ∧
    ((∃ e, mkBoundingBoxRequest axes mins maxs tgt = .error e) ↔
      ¬ validRequestFields axes mins maxs) := by
  have hzip : ((List.zip mins maxs).all (fun p => decide (p.1 ≤ p.2)) = true
      ∧ mins.length = axes.length ∧ maxs.length = axes.length) ↔
      (mins.length = axes.length ∧ maxs.length = axes.length ∧
        ∀ i, i < axes.length → mins.getD i 0 ≤ maxs.getD i 0) := by
    constructor
    · rintro ⟨hall, hm, hM⟩
      refine ⟨hm, hM, fun i hi => ?_⟩
      have hmi : i < mins.length := by omega
      have hMi : i < maxs.length := by omega
      have hmem : (mins.getD i 0, maxs.getD i 0) ∈ List.zip mins maxs := by
        have : (mins.getD i 0, maxs.getD i 0) = (List.zip mins maxs).get
            ⟨i, by simp [List.length_zip]; omega⟩ := by
          simp [List.get_zip, List.getD, List.getElem?_eq_getElem, hmi, hMi,
            List.get_eq_getElem]
        rw [this]
        exact List.get_mem _ _ _
      have := List.all_eq_true.mp hall _ hmem
      simpa using this
    · rintro ⟨hm, hM, hle⟩
      refine ⟨List.all_eq_true.mpr ?_, hm, hM⟩
      rintro ⟨a, b⟩ hab
      rcases List.mem_iff_get.mp hab with ⟨⟨i, hi⟩, hget⟩
      have hiz : i < min mins.length maxs.length := by
        simpa [List.length_zip] using hi
      have hmi : i < mins.length := lt_of_lt_of_le hiz (min_le_left _ _)
      have hMi : i < maxs.length := lt_of_lt_of_le hiz (min_le_right _ _)
      have hgz : (List.zip mins maxs).get ⟨i, hi⟩ = (mins[i], maxs[i]) := by
        simp [List.get_zip, List.get_eq_getElem]
      rw [hgz] at hget
      injection hget with ha hb
      subst ha; subst hb
      have := hle i (by omega)
      simpa [List.getD, List.getElem?_eq_getElem, hmi, hMi] using this
  constructor
  · constructor
    · rintro ⟨r, hr⟩
      unfold mkBoundingBoxRequest at hr
      split at hr
      · exact absurd hr (by simp)
      · split at hr
        · exact absurd hr (by simp)
        · split at hr
          · exact absurd hr (by simp)
          · rename_i h1 h2 h3
            have hm : mins.length = axes.length := by
              rcases not_or.mp h2 with ⟨h, _⟩; omega
            have hM : maxs.length = axes.length := by
              rcases not_or.mp h2 with ⟨_, h⟩; omega
            exact ⟨fun a ha => List.all_eq_true.mp (by simpa using h1) a ha,
              hzip.mp ⟨by simpa using h3, hm, hM⟩⟩
    · intro hv
      rcases hv with ⟨hsp, hm, hM, hle⟩
      refine ⟨⟨axes, mins, maxs, tgt⟩, ?_⟩
      unfold mkBoundingBoxRequest
      have h1 : axes.all Axis.isSpatial = true := List.all_eq_true.mpr hsp
      have h3 := (hzip.mpr ⟨hm, hM, hle⟩).1
      simp [h1, hm, hM, h3]
  · constructor
    · rintro ⟨e, he⟩ hv
      rcases hv with ⟨hsp, hm, hM, hle⟩
      unfold mkBoundingBoxRequest at he
      have h1 : axes.all Axis.isSpatial = true := List.all_eq_true.mpr hsp
      have h3 := (hzip.mpr ⟨hm, hM, hle⟩).1
      simp [h1, hm, hM, h3] at he
    · intro hv
      unfold mkBoundingBoxRequest
      split
      · exact ⟨_, rfl⟩
      · split
        · exact ⟨_, rfl⟩
        · split
          · exact ⟨_, rfl⟩
          · rename_i h1 h2 h3
            exfalso
            apply hv
            have hm : mins.length = axes.length := by
              rcases not_or.mp h2 with ⟨h, _⟩; omega
            have hM : maxs.length = axes.length := by
              rcases not_or.mp h2 with ⟨_, h⟩; omega
            refine ⟨fun a ha => List.all_eq_true.mp (by simpa using h1) a ha,
              (hzip.mp ⟨by simpa using h3, hm, hM⟩)⟩

/-- C2: a `BoundingBoxRequest` is frozen: assigning any value to any field
raises `FrozenInstanceError` and the request's fields are unchanged
afterwards. -/
theorem boundingBoxRequest_immutable (r : BoundingBoxRequest) (f : RequestField)
    (v : AttrValue) :
    (r.setAttr f v).1 = .error "FrozenInstanceError" ∧ (r.setAttr f v).2 = r :=
  ⟨rfl, rfl⟩


/-- Modelled from the spec: the transformation variants `Identity`,
`Translation`, `Scale`, `Affine` (homogeneous matrix with declared input
and output axes) and `Sequence` (ordered list, first applied first). -/
inductive Transformation where
  | identity
  | translation (offset : List ℚ)
  | scale (factor : List ℚ)
  | affine (matrix : List (List ℚ)) (inputAxes outputAxes : List Axis)
  | sequence (transformations : List Transformation)

/-- A per-element transformation registry: an insertion-ordered mapping
from coordinate-system name to transformation, as Python dicts behave. -/
abbrev TransformRegistry := List (String × Transformation)

/-- Keys of a registry, in insertion order. -/
def TransformRegistry.keys (reg : TransformRegistry) : List String :=
  reg.map Prod.fst

/-- Lookup of a coordinate-system name in a registry. -/
def TransformRegistry.find : TransformRegistry → String → Option Transformation
  | [], _ => none
  | (k, t) :: rest, cs => if k = cs then some t else TransformRegistry.find rest cs

/-- Modelled from the spec: `set_transformation` stores a transformation
under a coordinate-system name, overwriting any existing entry for that
name (Python dict assignment: in-place overwrite of an existing key,
append of a new one). -/
def set_transformation : TransformRegistry → Transformation → String → TransformRegistry
  | [], t, cs => [(cs, t)]
  | (k, t0) :: rest, t, cs =>
    if k = cs then (cs, t) :: rest else (k, t0) :: set_transformation rest t cs

/-- Deletion of a key from a registry (Python `del d[k]`). -/
def TransformRegistry.erase : TransformRegistry → String → TransformRegistry
  | [], _ => []
  | (k, t) :: rest, cs => if k = cs then rest else (k, t) :: TransformRegistry.erase rest cs

/-- Modelled from the spec: `remove_transformation` deletes the entry for a
coordinate-system name and raises a `KeyError` when the name is absent. -/
def remove_transformation (reg : TransformRegistry) (cs : String) :
    Except String TransformRegistry :=
  match reg.find cs with
  | some _ => .ok (reg.erase cs)
  | none => .error "KeyError"

/-- Modelled from the spec: `get_transformation` looks a name up in the
registry; an element with no explicit entry for `"global"` defaults to the
identity there, while any other absent name raises a `KeyError`. -/
def get_transformation (reg : TransformRegistry) (cs : String) :
    Except String Transformation :=
  match reg.find cs with
  | some t => .ok t
  | none => if cs = "global" then .ok .identity else .error "KeyError"

theorem find_set_self (reg : TransformRegistry) (t : Transformation) (cs : String) :
    (set_transformation reg t cs).find cs = some t := by
  induction reg with
  | nil => simp [set_transformation, TransformRegistry.find]
  | cons kv rest ih =>
    obtain ⟨k, t0⟩ := kv
    by_cases h : k = cs
    · simp [set_transformation, TransformRegistry.find, h]
    · simp [set_transformation, TransformRegistry.find, h, ih]

theorem erase_set_of_absent (reg : TransformRegistry) (t : Transformation)
    (cs : String) (habs : reg.find cs = none) :
    (set_transformation reg t cs).erase cs = reg := by
  induction reg with
  | nil => simp [set_transformation, TransformRegistry.erase]
  | cons kv rest ih =>
    obtain ⟨k, t0⟩ := kv
    by_cases h : k = cs
    · simp [TransformRegistry.find, h] at habs
    · have habs' : TransformRegistry.find rest cs = none := by
        simpa [TransformRegistry.find, h] using habs
      simp [set_transformation, TransformRegistry.erase, h, ih habs']

/-- C8 counterexample: when the name was already registered, the
set-then-remove round trip does not restore the previous registry state.
Starting from a registry where `"cs"` maps to the identity, setting a
translation under `"cs"` and then removing `"cs"` yields the empty
registry, whose state for `"cs"` (absent) differs from the pre-set state
(identity). -/
theorem set_remove_roundtrip_counterexample :
    remove_transformation
        (set_transformation [("cs", Transformation.identity)]
          (Transformation.translation [1, 2]) "cs") "cs" = .ok [] ∧
      TransformRegistry.find ([] : TransformRegistry) "cs" ≠
        TransformRegistry.find [("cs", Transformation.identity)] "cs" := by
  constructor
  · rfl
  · simp [TransformRegistry.find]

/-- C8 (amended): if the coordinate-system name was not previously
registered, `remove_transformation` after `set_transformation` restores
the previous registry exactly; `set_transformation` overwrites the entry
for the name; and `remove_transformation` raises a `KeyError`-class error
whenever the name was never set. -/
theorem set_remove_roundtrip (reg : TransformRegistry) (t : Transformation)
    (cs : String) (habs : TransformRegistry.find reg cs = none) :
    remove_transformation (set_transformation reg t cs) cs = .ok reg ∧
      TransformRegistry.find (set_transformation reg t cs) cs = some t ∧
      remove_transformation reg cs = .error "KeyError" := by
  refine ⟨?_, find_set_self reg t cs, ?_⟩
  · unfold remove_transformation
    rw [find_set_self reg t cs]
    rw [erase_set_of_absent reg t cs habs]
  · unfold remove_transformation
    rw [habs]

/-- Witness for C8's amended theorem at the empty registry. -/
theorem set_remove_roundtrip_witness :
    TransformRegistry.find ([] : TransformRegistry) "new" = none ∧
      (remove_transformation
          (set_transformation [] (Transformation.translation [3]) "new") "new" =
          .ok [] ∧
        TransformRegistry.find
            (set_transformation [] (Transformation.translation [3]) "new") "new" =
          some (Transformation.translation [3]) ∧
        remove_transformation ([] : TransformRegistry) "new" = .error "KeyError") :=
  ⟨rfl, set_remove_roundtrip [] (Transformation.translation [3]) "new" rfl⟩

/-- A 2D affine map in homogeneous form, acting on `(x, y)` as
`x' = a x + b y + tx`, `y' = c x + d y + ty`. -/
structure Affine2 where
  a : ℚ
  b : ℚ
  tx : ℚ
  c : ℚ
  d : ℚ
  ty : ℚ
  deriving DecidableEq, Repr

/-- The identity 2D affine map. -/
def Affine2.id2 : Affine2 := ⟨1, 0, 0, 0, 1, 0⟩

/-- Apply a 2D affine map to a point. -/
def Affine2.apply (A : Affine2) (p : ℚ × ℚ) : ℚ × ℚ :=
  (A.a * p.1 + A.b * p.2 + A.tx, A.c * p.1 + A.d * p.2 + A.ty)

/-- Composition `second ∘ first` of 2D affine maps. -/
def Affine2.comp (second first : Affine2) : Affine2 :=
  ⟨second.a * first.a + second.b * first.c,
    second.a * first.b + second.b * first.d,
    second.a * first.tx + second.b * first.ty + second.tx,
    second.c * first.a + second.d * first.c,
    second.c * first.b + second.d * first.d,
    second.c * first.tx + second.d * first.ty + second.ty⟩

/-- Determinant of the linear part of a 2D affine map. -/
def Affine2.det (A : Affine2) : ℚ := A.a * A.d - A.b * A.c

/-- Modelled from the spec: `inverse()` fails with
`SingularTransformationError` if the affine matrix is not invertible,
otherwise returns the inverse affine map. -/
def Affine2.inverse (A : Affine2) : Except String Affine2 :=
  if A.det = 0 then
    .error "SingularTransformationError"
  else
    .ok ⟨A.d / A.det, -A.b / A.det, (A.b * A.ty - A.d * A.tx) / A.det,
      -A.c / A.det, A.a / A.det, (A.c * A.tx - A.a * A.ty) / A.det⟩

/-- Modelled from the spec: `to_affine_matrix` materializes any variant
into one homogeneous matrix for the requested axes — here the 2D spatial
axes `(x, y)`; a transformation whose declared axes do not match the
requested ones fails with `AxisMismatchError`, and a `Sequence` is
evaluated by composing its members in list order (first applied first). -/
def Transformation.toAffine2 : Transformation → Except String Affine2
  | .identity => .ok Affine2.id2
  | .translation offset =>
    match offset with
    | [dx, dy] => .ok ⟨1, 0, dx, 0, 1, dy⟩
    | _ => .error "AxisMismatchError"
  | .scale factor =>
    match factor with
    | [sx, sy] => .ok ⟨sx, 0, 0, 0, sy, 0⟩
    | _ => .error "AxisMismatchError"
  | .affine matrix inputAxes outputAxes =>
    if inputAxes = [Axis.x, Axis.y] ∧ outputAxes = [Axis.x, Axis.y] then
      match matrix with
      | [[a, b, tx], [c, d, ty], lastRow] =>
        if lastRow = [0, 0, 1] then .ok ⟨a, b, tx, c, d, ty⟩
        else .error "ValueError: the last row of a homogeneous matrix must be [0, 0, 1]"
      | _ => .error "ValueError: a 2D affine transformation needs a 3x3 matrix"
    else .error "AxisMismatchError"
  | .sequence transformations => seqToAffine2 transformations
where
  /-- Materialize a list of transformations composed in list order. -/
  seqToAffine2 : List Transformation → Except String Affine2
    | [] => .ok Affine2.id2
    | t :: rest => do
      let first ← t.toAffine2
      let remaining ← seqToAffine2 rest
      .ok (Affine2.comp remaining first)

/-- An axis-aligned 2D box in native coordinates. -/
structure Box2 where
  xmin : ℚ
  xmax : ℚ
  ymin : ℚ
  ymax : ℚ
  deriving DecidableEq, Repr

/-- Modelled from the spec (§4.4): map all `2^k` corners of a request box
through the inverted transformation and return the enclosing axis-aligned
bounding box of the mapped corners in native axes. -/
def cornerBox (Ainv : Affine2) (box : Box2) : Box2 :=
  let p1 := Ainv.apply (box.xmin, box.ymin)
  let p2 := Ainv.apply (box.xmin, box.ymax)
  let p3 := Ainv.apply (box.xmax, box.ymin)
  let p4 := Ainv.apply (box.xmax, box.ymax)
  ⟨min (min p1.1 p2.1) (min p3.1 p4.1),
    max (max p1.1 p2.1) (max p3.1 p4.1),
    min (min p1.2 p2.2) (min p3.2 p4.2),
    max (max p1.2 p2.2) (max p3.2 p4.2)⟩

/-- Modelled from the spec (§4.4): resolution of a request box through a
transformation `T` from native to target coordinates: invert `T` (failing
with `SingularTransformationError` when not invertible) and take the
enclosing corner box of the inverse image. -/
def resolveBoundingBox (t : Transformation) (box : Box2) : Except String Box2 := do
  let A ← t.toAffine2
  let Ainv ← A.inverse
  .ok (cornerBox Ainv box)

/-- Modelled from the spec: the resolution step of a query consults the
element's transformation registry for the target coordinate system
(defaulting to the identity for `"global"`) and maps the request box back
into the element's native coordinates. -/
def resolveRequest (reg : TransformRegistry) (targetCs : String) (box : Box2) :
    Except String Box2 := do
  let t ← get_transformation reg targetCs
  resolveBoundingBox t box

/-- The rotation by `arcsin(4/5)` around the origin followed by a
translation by 2 along `x`, as a homogeneous affine transformation on
axes `(x, y)` — an exact-rational analogue of the π/6 rotation used by
`test_affine_labels_2d`. -/
def rotationTransformation : Transformation :=
  .affine [[3/5, -4/5, 2], [4/5, 3/5, 0], [0, 0, 1]] [Axis.x, Axis.y] [Axis.x, Axis.y]

/-- A labels-element registry carrying the rotation under the name
`"rotated"` (and no explicit `"global"` entry, which defaults to the
identity). -/
def rotatedRegistry : TransformRegistry := [("rotated", rotationTransformation)]

/-- The literal request box of the affine test: `x ∈ [0, 4]`, `y ∈ [5, 9]`. -/
def affineTestBox : Box2 := ⟨0, 4, 5, 9⟩

/-- C9: for an element carrying an affine rotation under the coordinate
system `"rotated"`, resolving the same literal box with target
`"rotated"` inverts the rotation and selects a different native-space
region than resolving it with target `"global"` (which resolves to the
literal box itself): the inverse-mapping step is exercised, not
bypassed. -/
theorem affine_rotation_selects_different_native_region :
    resolveRequest rotatedRegistry "rotated" affineTestBox =
        .ok ⟨14/5, 42/5, 7/5, 7⟩ ∧
      resolveRequest rotatedRegistry "global" affineTestBox = .ok affineTestBox ∧
      (⟨14/5, 42/5, 7/5, 7⟩ : Box2) ≠ affineTestBox := by
  have hget : get_transformation rotatedRegistry "rotated" = .ok rotationTransformation := by
    simp [get_transformation, rotatedRegistry, TransformRegistry.find]
  have hgetGlobal : get_transformation rotatedRegistry "global" = .ok .identity := by
    simp [get_transformation, rotatedRegistry, TransformRegistry.find]
  have hInv : Affine2.inverse ⟨3/5, -4/5, 2, 4/5, 3/5, 0⟩ =
      .ok ⟨3/5, 4/5, -(6/5), -(4/5), 3/5, 8/5⟩ := by
    simp only [Affine2.inverse, Affine2.det]
    norm_num
  have hIdInv : Affine2.id2.inverse = .ok Affine2.id2 := by
    simp only [Affine2.inverse, Affine2.det, Affine2.id2]
    norm_num
  have hc : cornerBox ⟨3/5, 4/5, -(6/5), -(4/5), 3/5, 8/5⟩ affineTestBox =
      ⟨14/5, 42/5, 7/5, 7⟩ := by
    simp only [cornerBox, Affine2.apply, affineTestBox, Box2.mk.injEq]
    norm_num
  have hcId : cornerBox Affine2.id2 affineTestBox = affineTestBox := by
    simp only [cornerBox, Affine2.apply, Affine2.id2, affineTestBox, Box2.mk.injEq]
    norm_num
  refine ⟨?_, ?_, ?_⟩
  · calc resolveRequest rotatedRegistry "rotated" affineTestBox
        = resolveBoundingBox rotationTransformation affineTestBox := by
          unfold resolveRequest
          rw [hget]
          rfl
      _ = (do
            let Ainv ← Affine2.inverse ⟨3/5, -4/5, 2, 4/5, 3/5, 0⟩
            Except.ok (cornerBox Ainv affineTestBox)) := rfl
      _ = Except.ok (cornerBox ⟨3/5, 4/5, -(6/5), -(4/5), 3/5, 8/5⟩ affineTestBox) := by
          rw [hInv]
          rfl
      _ = Except.ok ⟨14/5, 42/5, 7/5, 7⟩ := by rw [hc]
  · calc resolveRequest rotatedRegistry "global" affineTestBox
        = resolveBoundingBox .identity affineTestBox := by
          unfold resolveRequest
          rw [hgetGlobal]
          rfl
      _ = (do
            let Ainv ← Affine2.id2.inverse
            Except.ok (cornerBox Ainv affineTestBox)) := rfl
      _ = Except.ok (cornerBox Affine2.id2 affineTestBox) := by
          rw [hIdInv]
          rfl
      _ = Except.ok affineTestBox := by rw [hcId]
  · simp only [ne_eq, affineTestBox, Box2.mk.injEq, not_and]
    norm_num

/-- A row of a point-set element: 2D spatial coordinates plus a
non-spatial annotation column (the `genes` feature of the tests). -/
structure PointRow where
  x : ℚ
  y : ℚ
  gene : String
  deriving DecidableEq, Repr

/-- A point-set element: a list of rows. -/
structure PointsElement where
  rows : List PointRow
  deriving DecidableEq, Repr

/-- The inclusive multi-axis membership predicate of the spec:
`min <= coordinate <= max` on every queried axis. -/
def PointRow.inBox (r : PointRow) (box : Box2) : Bool :=
  decide (box.xmin ≤ r.x) && decide (r.x ≤ box.xmax) &&
    decide (box.ymin ≤ r.y) && decide (r.y ≤ box.ymax)

/-- Modelled from the spec: the point-set filter keeps exactly the rows
satisfying the inclusive predicate on every queried axis, keeping their
annotation columns; if zero rows survive it returns the empty sentinel
(`none`), not a zero-length element. -/
def pointsQuery (e : PointsElement) (box : Box2) : Option PointsElement :=
  let kept := e.rows.filter (fun r => r.inBox box)
  if kept.isEmpty then none else some ⟨kept⟩

/-- Translate a request's ordered axes and coordinates into a native 2D
box; requests over axes other than `{x, y}` are out of this 2D model. -/
def requestBox2 (req : BoundingBoxRequest) : Option Box2 :=
  match req.axes, req.min_coordinate, req.max_coordinate with
  | [Axis.x, Axis.y], [xmin, ymin], [xmax, ymax] => some ⟨xmin, xmax, ymin, ymax⟩
  | [Axis.y, Axis.x], [ymin, xmin], [ymax, xmax] => some ⟨xmin, xmax, ymin, ymax⟩
  | _, _, _ => none

/-- Modelled from the spec: `bounding_box_query` on a point set resolves
the request box into native coordinates through the element's registry
and applies the row-wise inclusive filter. -/
def bounding_box_query_points (e : PointsElement) (reg : TransformRegistry)
    (req : BoundingBoxRequest) : Except String (Option PointsElement) :=
  match requestBox2 req with
  | none => .error "AxisMismatchError"
  | some box => do
    let native ← resolveRequest reg req.target_coordinate_system box
    .ok (pointsQuery e native)

/-- Modelled from the spec: the query is purely functional with respect to
its inputs, so the state-passing form returns the element as it stands
after the call, which is the element passed in. -/
def bounding_box_query_points_state (e : PointsElement) (reg : TransformRegistry)
    (req : BoundingBoxRequest) :
    Except String (Option PointsElement) × PointsElement × TransformRegistry :=
  (bounding_box_query_points e reg req, e, reg)

/-- The point set of the tests: `(10,10), (20,20), (20,30)` on axes
`(x, y)`, all annotated with gene `"a"`. -/
def testPoints : PointsElement :=
  ⟨[⟨10, 10, "a"⟩, ⟨20, 20, "a"⟩, ⟨20, 30, "a"⟩]⟩

/-- The request of `test_bounding_box_points`: axes `(x, y)`,
`x ∈ [18, 22]`, `y ∈ [25, 35]`, target `"global"`. -/
def pointsRequest : BoundingBoxRequest :=
  ⟨[Axis.x, Axis.y], [18, 25], [22, 35], "global"⟩

/-- The request of `test_bounding_box_points_no_points`: axes `(x, y)`,
`x ∈ [40, 45]`, `y ∈ [50, 55]`, target `"global"`. -/
def emptyPointsRequest : BoundingBoxRequest :=
  ⟨[Axis.x, Axis.y], [40, 50], [45, 55], "global"⟩

theorem resolve_global_identity (reg : TransformRegistry) (box : Box2)
    (hno : TransformRegistry.find reg "global" = none) :
    resolveRequest reg "global" box = .ok (cornerBox Affine2.id2 box) := by
  unfold resolveRequest
  have hget : get_transformation reg "global" = .ok .identity := by
    unfold get_transformation
    rw [hno]
    rfl
  rw [hget]
  show resolveBoundingBox .identity box = _
  unfold resolveBoundingBox
  have hIdInv : Affine2.id2.inverse = .ok Affine2.id2 := by
    simp only [Affine2.inverse, Affine2.det, Affine2.id2]
    norm_num
  show (do
      let Ainv ← Affine2.id2.inverse
      Except.ok (cornerBox Ainv box)) = _
  rw [hIdInv]
  rfl

theorem cornerBox_id2 (box : Box2) (hx : box.xmin ≤ box.xmax)
    (hy : box.ymin ≤ box.ymax) : cornerBox Affine2.id2 box = box := by
  obtain ⟨xmin, xmax, ymin, ymax⟩ := box
  simp only [cornerBox, Affine2.apply, Affine2.id2, Box2.mk.injEq] at *
  norm_num
  tauto

/-- C3: the point-set query keeps exactly the rows satisfying the
inclusive predicate `min ≤ coordinate ≤ max` on every queried axis,
preserving annotation columns of surviving rows; on the test points
`(10,10), (20,20), (20,30)` the box `x ∈ [18,22], y ∈ [25,35]` in
`"global"` returns exactly the point `(20,30)` (with its annotation), and
the non-overlapping box `x ∈ [40,45], y ∈ [50,55]` returns the empty
sentinel `none`, not a zero-length element. -/
theorem points_query_inclusive_filter (rows : List PointRow) (box : Box2)
    (r : PointRow) :
    ((∃ out, pointsQuery ⟨rows⟩ box = some out ∧ r ∈ out.rows) ↔
      (r ∈ rows ∧ box.xmin ≤ r.x ∧ r.x ≤ box.xmax ∧ box.ymin ≤ r.y ∧
        r.y ≤ box.ymax)) ∧
    bounding_box_query_points testPoints [] pointsRequest =
      .ok (some ⟨[⟨20, 30, "a"⟩]⟩) ∧
    bounding_box_query_points testPoints [] emptyPointsRequest = .ok none := by
  have hres : ∀ box : Box2, box.xmin ≤ box.xmax → box.ymin ≤ box.ymax →
      resolveRequest [] "global" box = .ok box := by
    intro b h1 h2
    rw [resolve_global_identity [] b rfl, cornerBox_id2 b h1 h2]
  refine ⟨?_, ?_, ?_⟩
  · unfold pointsQuery
    by_cases hemp : (rows.filter (fun r => r.inBox box)).isEmpty
    · simp only [hemp, if_true]
      constructor
      · rintro ⟨out, hout, _⟩
        exact absurd hout (by simp)
      · rintro ⟨hr, h1, h2, h3, h4⟩
        exfalso
        have hmem : r ∈ rows.filter (fun r => r.inBox box) := by
          rw [List.mem_filter]
          refine ⟨hr, ?_⟩
          simp only [PointRow.inBox, Bool.and_eq_true, decide_eq_true_eq]
          exact ⟨⟨⟨h1, h2⟩, h3⟩, h4⟩
        rw [List.isEmpty_iff] at hemp
        rw [hemp] at hmem
        exact absurd hmem (List.not_mem_nil r)
    · simp only [hemp, if_false]
      constructor
      · rintro ⟨out, hout, hmem⟩
        have hout' : out = ⟨rows.filter (fun r => r.inBox box)⟩ := by
          injection hout with h
          exact h.symm
        rw [hout'] at hmem
        have hm := List.mem_filter.mp hmem
        have hb := hm.2
        simp only [PointRow.inBox, Bool.and_eq_true, decide_eq_true_eq] at hb
        exact ⟨hm.1, hb.1.1.1, hb.1.1.2, hb.1.2, hb.2⟩
      · rintro ⟨hr, h1, h2, h3, h4⟩
        refine ⟨⟨rows.filter (fun r => r.inBox box)⟩, rfl, ?_⟩
        rw [List.mem_filter]
        refine ⟨hr, ?_⟩
        simp only [PointRow.inBox, Bool.and_eq_true, decide_eq_true_eq]
        exact ⟨⟨⟨h1, h2⟩, h3⟩, h4⟩
  · show (do
        let native ← resolveRequest [] "global" (⟨18, 22, 25, 35⟩ : Box2)
        Except.ok (pointsQuery testPoints native)) = _
    rw [hres ⟨18, 22, 25, 35⟩ (by norm_num) (by norm_num)]
    show Except.ok (pointsQuery testPoints ⟨18, 22, 25, 35⟩) = _
    have hq : pointsQuery testPoints ⟨18, 22, 25, 35⟩ = some ⟨[⟨20, 30, "a"⟩]⟩ := by
      decide
    rw [hq]
  · show (do
        let native ← resolveRequest [] "global" (⟨40, 45, 50, 55⟩ : Box2)
        Except.ok (pointsQuery testPoints native)) = _
    rw [hres ⟨40, 45, 50, 55⟩ (by norm_num) (by norm_num)]
    show Except.ok (pointsQuery testPoints ⟨40, 45, 50, 55⟩) = _
    have hq : pointsQuery testPoints ⟨40, 45, 50, 55⟩ = none := by decide
    rw [hq]

/-- C4: the query never mutates the element passed in: the state-passing
form returns the payload and the attached transformation registry exactly
as they were, the result being a fresh element (a sublist of the input
rows) or the sentinel; in particular the test element's coordinate
columns read back unchanged after the query. -/
theorem points_query_does_not_mutate (e : PointsElement) (reg : TransformRegistry)
    (req : BoundingBoxRequest) (box : Box2) :
    (bounding_box_query_points_state e reg req).2 = (e, reg) ∧
      (match pointsQuery e box with
        | some out => out.rows.Sublist e.rows
        | none => True) ∧
      ((bounding_box_query_points_state testPoints [] pointsRequest).2.1.rows.map
          PointRow.x = [10, 20, 20] ∧
        (bounding_box_query_points_state testPoints [] pointsRequest).2.1.rows.map
          PointRow.y = [10, 20, 30]) := by
  refine ⟨rfl, ?_, rfl, rfl⟩
  cases h : pointsQuery e box with
  | none => trivial
  | some out =>
    simp only [pointsQuery] at h
    by_cases hemp : (e.rows.filter (fun r => r.inBox box)).isEmpty
    · rw [if_pos hemp] at h
      cases h
    · rw [if_neg hemp] at h
      injection h with h
      rw [← h]
      exact List.filter_sublist _

/-- A 2D raster element: shape `(nc, ny, nx)` with integer pixel values,
indexed channel-first. -/
structure Raster2D where
  nc : ℕ
  ny : ℕ
  nx : ℕ
  data : ℕ → ℕ → ℕ → ℤ

/-- Modelled from the spec: the raster filter floors/ceils the native
bounding box to integer grid indices per spatial axis, slices the payload
along exactly the spatial axes leaving the channel axis untouched, and
returns the empty sentinel when the box lies fully outside the array
extent. -/
def rasterQuery2D (img : Raster2D) (box : Box2) : Option Raster2D :=
  let yLo : ℤ := max 0 ⌊box.ymin⌋
  let yHi : ℤ := min ((img.ny : ℤ) - 1) ⌈box.ymax⌉
  let xLo : ℤ := max 0 ⌊box.xmin⌋
  let xHi : ℤ := min ((img.nx : ℤ) - 1) ⌈box.xmax⌉
  if yHi < yLo ∨ xHi < xLo then none
  else
    some ⟨img.nc, (yHi - yLo + 1).toNat, (xHi - xLo + 1).toNat,
      fun c j i => img.data c (j + yLo.toNat) (i + xLo.toNat)⟩

/-- An axis-aligned 3D box in native coordinates. -/
structure Box3 where
  zmin : ℚ
  zmax : ℚ
  ymin : ℚ
  ymax : ℚ
  xmin : ℚ
  xmax : ℚ
  deriving DecidableEq, Repr

/-- A 3D raster element: shape `(nc, nz, ny, nx)`, channel-first. -/
structure Raster3D where
  nc : ℕ
  nz : ℕ
  ny : ℕ
  nx : ℕ
  data : ℕ → ℕ → ℕ → ℕ → ℤ

/-- Modelled from the spec: the 3D raster filter, slicing the three
spatial axes and preserving the channel axis in full. -/
def rasterQuery3D (img : Raster3D) (box : Box3) : Option Raster3D :=
  let zLo : ℤ := max 0 ⌊box.zmin⌋
  let zHi : ℤ := min ((img.nz : ℤ) - 1) ⌈box.zmax⌉
  let yLo : ℤ := max 0 ⌊box.ymin⌋
  let yHi : ℤ := min ((img.ny : ℤ) - 1) ⌈box.ymax⌉
  let xLo : ℤ := max 0 ⌊box.xmin⌋
  let xHi : ℤ := min ((img.nx : ℤ) - 1) ⌈box.xmax⌉
  if zHi < zLo ∨ yHi < yLo ∨ xHi < xLo then none
  else
    some ⟨img.nc, (zHi - zLo + 1).toNat, (yHi - yLo + 1).toNat, (xHi - xLo + 1).toNat,
      fun c k j i => img.data c (k + zLo.toNat) (j + yLo.toNat) (i + xLo.toNat)⟩

/-- The image of `test_bounding_box_image_2d`: shape `(nc, 10, 10)` with
value 1 exactly on rows `5..9`, columns `0..4`, and 0 elsewhere. -/
def testImage2D (nc : ℕ) : Raster2D :=
  ⟨nc, 10, 10, fun _ y x => if 5 ≤ y ∧ y ≤ 9 ∧ x ≤ 4 then 1 else 0⟩

/-- The image of `test_bounding_box_image_3d`: shape `(nc, 10, 10, 10)`
with value 1 exactly on `z ∈ 5..9`, `y ∈ 0..4`, `x ∈ 2..6`. -/
def testImage3D (nc : ℕ) : Raster3D :=
  ⟨nc, 10, 10, 10, fun _ z y x => if (5 ≤ z ∧ z ≤ 9) ∧ y ≤ 4 ∧ (2 ≤ x ∧ x ≤ 6) then 1 else 0⟩

/-- C5: the channel axis is never filtered and is preserved in full while
exactly the spatial axes are sliced: for every `n_channels ≥ 1`, querying
the `(nc, 10, 10)` test image with `y ∈ [5, 9]`, `x ∈ [0, 4]` yields a
`(nc, 5, 5)` array entirely filled with 1, and querying the
`(nc, 10, 10, 10)` test volume with `z ∈ [5, 9]`, `y ∈ [0, 4]`,
`x ∈ [2, 6]` yields a `(nc, 5, 5, 5)` array entirely filled with 1. -/
theorem raster_query_preserves_channel_axis (nc : ℕ) (hnc : 1 ≤ nc) :
    (∃ r, rasterQuery2D (testImage2D nc) ⟨0, 4, 5, 9⟩ = some r ∧
      r.nc = nc ∧ r.ny = 5 ∧ r.nx = 5 ∧
      ∀ c j i, c < nc → j < 5 → i < 5 → r.data c j i = 1) ∧
    (∃ r, rasterQuery3D (testImage3D nc) ⟨5, 9, 0, 4, 2, 6⟩ = some r ∧
      r.nc = nc ∧ r.nz = 5 ∧ r.ny = 5 ∧ r.nx = 5 ∧
      ∀ c k j i, c < nc → k < 5 → j < 5 → i < 5 → r.data c k j i = 1) := by
  constructor
  · refine ⟨⟨nc, 5, 5,
      fun c j i => (testImage2D nc).data c (j + (5:ℤ).toNat) (i + (0:ℤ).toNat)⟩,
      ?_, rfl, rfl, rfl, ?_⟩
    · unfold rasterQuery2D testImage2D
      norm_num
      decide
    · intro c j i hc hj hi
      show (if 5 ≤ j + (5:ℤ).toNat ∧ j + (5:ℤ).toNat ≤ 9 ∧ i + (0:ℤ).toNat ≤ 4
          then (1:ℤ) else 0) = 1
      rw [if_pos]
      refine ⟨?_, ?_, ?_⟩ <;> simp [Int.toNat_ofNat] <;> omega
  · refine ⟨⟨nc, 5, 5, 5,
      fun c k j i => (testImage3D nc).data c (k + (5:ℤ).toNat) (j + (0:ℤ).toNat)
        (i + (2:ℤ).toNat)⟩,
      ?_, rfl, rfl, rfl, rfl, ?_⟩
    · unfold rasterQuery3D testImage3D
      norm_num
      decide
    · intro c k j i hc hk hj hi
      show (if (5 ≤ k + (5:ℤ).toNat ∧ k + (5:ℤ).toNat ≤ 9) ∧
          j + (0:ℤ).toNat ≤ 4 ∧ (2 ≤ i + (2:ℤ).toNat ∧ i + (2:ℤ).toNat ≤ 6)
          then (1:ℤ) else 0) = 1
      rw [if_pos]
      refine ⟨⟨?_, ?_⟩, ?_, ?_, ?_⟩ <;> simp [Int.toNat_ofNat] <;> omega

/-- Witness for C5 at `n_channels = 3`. -/
theorem raster_query_preserves_channel_axis_witness :
    1 ≤ 3 ∧
    ((∃ r, rasterQuery2D (testImage2D 3) ⟨0, 4, 5, 9⟩ = some r ∧
      r.nc = 3 ∧ r.ny = 5 ∧ r.nx = 5 ∧
      ∀ c j i, c < 3 → j < 5 → i < 5 → r.data c j i = 1) ∧
    (∃ r, rasterQuery3D (testImage3D 3) ⟨5, 9, 0, 4, 2, 6⟩ = some r ∧
      r.nc = 3 ∧ r.nz = 5 ∧ r.ny = 5 ∧ r.nx = 5 ∧
      ∀ c k j i, c < 3 → k < 5 → j < 5 → i < 5 → r.data c k j i = 1)) :=
  ⟨by decide, raster_query_preserves_channel_axis 3 (by decide)⟩

/-- A polygon record: an original integer index together with its
geometry; the squares built by the tests are axis-aligned boxes, whose
geometric intersection with the query rectangle is interval overlap on
both axes. -/
structure PolyRecord where
  index : ℕ
  gxmin : ℚ
  gxmax : ℚ
  gymin : ℚ
  gymax : ℚ
  deriving DecidableEq, Repr

/-- A circle record: an original integer index, a center and a radius. -/
structure CircleRecord where
  index : ℕ
  cx : ℚ
  cy : ℚ
  radius : ℚ
  deriving DecidableEq, Repr

/-- Closed-interval overlap of the record's axis-aligned geometry with
the query rectangle, on both axes: the standard geometric intersection
predicate restricted to axis-aligned boxes. -/
def PolyRecord.intersectsBox (p : PolyRecord) (box : Box2) : Bool :=
  decide (p.gxmin ≤ box.xmax) && decide (box.xmin ≤ p.gxmax) &&
    decide (p.gymin ≤ box.ymax) && decide (box.ymin ≤ p.gymax)

/-- Clamp a value into a closed interval. -/
def clamp (lo hi v : ℚ) : ℚ := max lo (min hi v)

/-- Modelled from the spec: circle-rectangle intersection is decided by
comparing the distance from the circle's center to the closest point of
the rectangle with the radius (squared, to stay exact). -/
def CircleRecord.intersectsBox (c : CircleRecord) (box : Box2) : Bool :=
  let px := clamp box.xmin box.xmax c.cx
  let py := clamp box.ymin box.ymax c.cy
  decide ((px - c.cx) ^ 2 + (py - c.cy) ^ 2 ≤ c.radius ^ 2)

/-- Modelled from the spec: the polygon filter keeps exactly the records
whose geometry intersects the query rectangle, with original geometry (no
clipping) and original index preserved; an empty result is a zero-row
object of the same kind, never the sentinel. -/
def polygonsQuery (recs : List PolyRecord) (box : Box2) : List PolyRecord :=
  recs.filter (fun p => p.intersectsBox box)

/-- Modelled from the spec: the circle filter, analogous to the polygon
filter with the closest-point distance predicate. -/
def circlesQuery (recs : List CircleRecord) (box : Box2) : List CircleRecord :=
  recs.filter (fun c => c.intersectsBox box)

/-- The four squares of `test_bounding_box_polygons`: centers
`(10,10), (10,80), (80,20), (70,60)`, half-width 6, indexed 0..3. -/
def testSquares : List PolyRecord :=
  [⟨0, 4, 16, 4, 16⟩, ⟨1, 4, 16, 74, 86⟩, ⟨2, 74, 86, 14, 26⟩, ⟨3, 64, 76, 54, 66⟩]

/-- The four circles of `test_bounding_box_circles`: the same centers with
radius 10, indexed 0..3. -/
def testCircles : List CircleRecord :=
  [⟨0, 10, 10, 10⟩, ⟨1, 10, 80, 10⟩, ⟨2, 80, 20, 10⟩, ⟨3, 70, 60, 10⟩]

/-- The query rectangle of the polygon/circle tests: `y ∈ [40, 100]`,
`x ∈ [40, 100]`. -/
def shapesQueryBox : Box2 := ⟨40, 100, 40, 100⟩

/-- C6: the polygon/circle query keeps exactly the records whose geometry
intersects the query rectangle, with original geometry and index
preserved; on the four test squares the box `y ∈ [40,100], x ∈ [40,100]`
keeps exactly the record at original index 3 with its geometry untouched,
and on the four test circles the same box keeps exactly the record at
index 3. -/
theorem shapes_query_intersection_filter (recs : List PolyRecord) (box : Box2)
    (p : PolyRecord) :
    (p ∈ polygonsQuery recs box ↔
      (p ∈ recs ∧ p.gxmin ≤ box.xmax ∧ box.xmin ≤ p.gxmax ∧
        p.gymin ≤ box.ymax ∧ box.ymin ≤ p.gymax)) ∧
    polygonsQuery testSquares shapesQueryBox = [⟨3, 64, 76, 54, 66⟩] ∧
    circlesQuery testCircles shapesQueryBox = [⟨3, 70, 60, 10⟩] := by
  have h0 : CircleRecord.intersectsBox ⟨0, 10, 10, 10⟩ shapesQueryBox = false := by
    norm_num [CircleRecord.intersectsBox, clamp, shapesQueryBox]
  have h1 : CircleRecord.intersectsBox ⟨1, 10, 80, 10⟩ shapesQueryBox = false := by
    norm_num [CircleRecord.intersectsBox, clamp, shapesQueryBox]
  have h2 : CircleRecord.intersectsBox ⟨2, 80, 20, 10⟩ shapesQueryBox = false := by
    norm_num [CircleRecord.intersectsBox, clamp, shapesQueryBox]
  have h3 : CircleRecord.intersectsBox ⟨3, 70, 60, 10⟩ shapesQueryBox = true := by
    norm_num [CircleRecord.intersectsBox, clamp, shapesQueryBox]
  refine ⟨?_, by decide, ?_⟩
  swap
  · simp [circlesQuery, testCircles, List.filter_cons, h0, h1, h2, h3]
  unfold polygonsQuery
  rw [List.mem_filter]
  simp only [PolyRecord.intersectsBox, Bool.and_eq_true, decide_eq_true_eq]
  constructor
  · rintro ⟨h, ⟨⟨⟨h1, h2⟩, h3⟩, h4⟩⟩
    exact ⟨h, h1, h2, h3, h4⟩
  · rintro ⟨h, h1, h2, h3, h4⟩
    exact ⟨h, ⟨⟨⟨h1, h2⟩, h3⟩, h4⟩⟩

/-- Modelled from the spec: the polygon branch of the query dispatcher
returns a (possibly zero-row) object of the same kind, never the
sentinel. -/
def bounding_box_query_polygons (recs : List PolyRecord) (box : Box2) :
    Option (List PolyRecord) :=
  some (polygonsQuery recs box)

/-- Modelled from the spec: the circle branch of the query dispatcher
returns a (possibly zero-row) object of the same kind, never the
sentinel. -/
def bounding_box_query_circles (recs : List CircleRecord) (box : Box2) :
    Option (List CircleRecord) :=
  some (circlesQuery recs box)

/-- C7: the empty-result convention is asymmetric by kind: a point-set
query returns the sentinel `none` exactly when no row survives, a raster
query on a fully-outside box returns the sentinel, while the polygon and
circle branches always return an object of their own kind — on the test
records with a far-away box, a zero-row object, not the sentinel. -/
theorem empty_result_convention_asymmetric (rows : List PointRow) (box : Box2)
    (polys : List PolyRecord) (circs : List CircleRecord) :
    (pointsQuery ⟨rows⟩ box = none ↔
      rows.filter (fun r => r.inBox box) = []) ∧
    rasterQuery2D (testImage2D 1) ⟨40, 45, 40, 45⟩ = none ∧
    bounding_box_query_polygons polys box = some (polygonsQuery polys box) ∧
    bounding_box_query_circles circs box = some (circlesQuery circs box) ∧
    bounding_box_query_polygons testSquares ⟨200, 210, 200, 210⟩ = some [] ∧
    bounding_box_query_circles testCircles ⟨200, 210, 200, 210⟩ = some [] := by
  refine ⟨?_, ?_, rfl, rfl, by decide, ?_⟩
  · show (if (List.filter (fun r => r.inBox box) rows).isEmpty = true then none
        else some (⟨List.filter (fun r => r.inBox box) rows⟩ : PointsElement)) = none ↔ _
    split
    · rename_i hemp
      rw [List.isEmpty_iff] at hemp
      simp [hemp]
    · rename_i hemp
      rw [List.isEmpty_iff] at hemp
      simp [hemp]
  · unfold rasterQuery2D testImage2D
    norm_num
  · have g0 : CircleRecord.intersectsBox ⟨0, 10, 10, 10⟩ ⟨200, 210, 200, 210⟩ = false := by
      norm_num [CircleRecord.intersectsBox, clamp]
    have g1 : CircleRecord.intersectsBox ⟨1, 10, 80, 10⟩ ⟨200, 210, 200, 210⟩ = false := by
      norm_num [CircleRecord.intersectsBox, clamp]
    have g2 : CircleRecord.intersectsBox ⟨2, 80, 20, 10⟩ ⟨200, 210, 200, 210⟩ = false := by
      norm_num [CircleRecord.intersectsBox, clamp]
    have g3 : CircleRecord.intersectsBox ⟨3, 70, 60, 10⟩ ⟨200, 210, 200, 210⟩ = false := by
      norm_num [CircleRecord.intersectsBox, clamp]
    simp [bounding_box_query_circles, circlesQuery, testCircles, List.filter_cons,
      g0, g1, g2, g3]

/-- The `Transform` value object of `spatialdata._core.transform` (outside
the excerpt): `Transform(ndim=2)` is the default; other values stand for
caller- or payload-supplied transforms. -/
inductive Transform where
  | default2d
  | custom (tag : ℕ)
  deriving DecidableEq, Repr

/-- An image or labels payload of the `SpatialData` constructor, carrying
the transformation attached to its own metadata. -/
structure Payload where
  dataTag : ℕ
  attachedTransform : Transform
  deriving DecidableEq, Repr

/-- Modelled from the spec: `get_transform` (in
`spatialdata._core.transform`, outside the excerpt) reads the
transformation attached to the payload's metadata. -/
def get_transform (p : Payload) : Transform := p.attachedTransform

/-- Python dict item assignment `d[k] = v`: overwrite in place when the
key exists, append otherwise. -/
def dictSet {α : Type} : List (String × α) → String → α → List (String × α)
  | [], k, v => [(k, v)]
  | (k0, v0) :: rest, k, v =>
    if k0 = k then (k, v) :: rest else (k0, v0) :: dictSet rest k v

/-- Python dict lookup `d[k]`. -/
def dictLookup {α : Type} : List (String × α) → String → Option α
  | [], _ => none
  | (k0, v0) :: rest, k => if k0 = k then some v0 else dictLookup rest k

/-- From `SpatialData.__init__` (`_spatialdata.py` lines 49-64): default
the transform dict when the caller passed `None`, assert that the element
keys are a superset of the transform keys, then loop over the elements
overwriting every transform entry with `get_transform` of the payload. -/
def initTransforms (elems : List (String × Payload))
    (transformsOpt : Option (List (String × Transform))) :
    Except String (List (String × Transform)) :=
  let transforms : List (String × Transform) := match transformsOpt with
    | none => elems.map (fun kv => (kv.1, Transform.default2d))
    | some t => t
  if transforms.all (fun kv => (elems.map Prod.fst).contains kv.1) then
    .ok (elems.foldl (fun acc kv => dictSet acc kv.1 (get_transform kv.2)) transforms)
  else .error "AssertionError"


theorem dictSet_lookup_self {α : Type} (d : List (String × α)) (k : String) (v : α) :
    dictLookup (dictSet d k v) k = some v := by
  induction d with
  | nil => simp [dictSet, dictLookup]
  | cons kv rest ih =>
    obtain ⟨k0, v0⟩ := kv
    by_cases h : k0 = k
    · simp [dictSet, dictLookup, h]
    · simp [dictSet, dictLookup, h, ih]

theorem dictSet_lookup_other {α : Type} (d : List (String × α)) (k' k : String)
    (v : α) (h : k' ≠ k) : dictLookup (dictSet d k' v) k = dictLookup d k := by
  induction d with
  | nil => simp [dictSet, dictLookup, h]
  | cons kv rest ih =>
    obtain ⟨k0, v0⟩ := kv
    by_cases h0 : k0 = k'
    · subst h0
      simp [dictSet, dictLookup, h]
    · simp only [dictSet, if_neg h0]
      by_cases hk : k0 = k
      · simp [dictLookup, hk]
      · simp [dictLookup, hk, ih]

theorem overwrite_lookup_notmem (elems : List (String × Payload))
    (acc : List (String × Transform)) (k : String)
    (h : k ∉ elems.map Prod.fst) :
    dictLookup
        (elems.foldl (fun acc kv => dictSet acc kv.1 (get_transform kv.2)) acc) k =
      dictLookup acc k := by
  induction elems generalizing acc with
  | nil => rfl
  | cons kv rest ih =>
    obtain ⟨k0, v0⟩ := kv
    rw [List.map_cons] at h
    have hk : k0 ≠ k := fun he => h (he ▸ List.mem_cons_self _ _)
    have hrest : k ∉ rest.map Prod.fst := fun hm => h (List.mem_cons_of_mem _ hm)
    rw [List.foldl_cons, ih _ hrest]
    exact dictSet_lookup_other _ _ _ _ hk

theorem overwrite_lookup_mem (elems : List (String × Payload))
    (acc : List (String × Transform)) (k : String) (v : Payload)
    (hnodup : (elems.map Prod.fst).Nodup) (hmem : (k, v) ∈ elems) :
    dictLookup
        (elems.foldl (fun acc kv => dictSet acc kv.1 (get_transform kv.2)) acc) k =
      some (get_transform v) := by
  induction elems generalizing acc with
  | nil => cases hmem
  | cons kv rest ih =>
    obtain ⟨k0, v0⟩ := kv
    rw [List.map_cons] at hnodup
    have hnd := List.nodup_cons.mp hnodup
    rw [List.foldl_cons]
    rcases List.mem_cons.mp hmem with heq | hrest
    · injection heq with hk hv
      subst hk
      subst hv
      rw [overwrite_lookup_notmem rest _ k hnd.1]
      exact dictSet_lookup_self acc k (get_transform v)
    · exact ih _ hnd.2 hrest

/-- C10: the `SpatialData` constructor discards any caller-supplied
per-element transformation for images and labels: whenever the key-superset
assertion holds, it succeeds and the transform stored for every element
key is `get_transform` of that element's own payload, regardless of the
caller-supplied mapping. -/
theorem spatialdata_init_overwrites_transforms (images : List (String × Payload))
    (images_transform : List (String × Transform))
    (hnodup : (images.map Prod.fst).Nodup)
    (hsub : ∀ k ∈ images_transform.map Prod.fst, k ∈ images.map Prod.fst) :
    initTransforms images (some images_transform) =
      .ok (images.foldl (fun acc kv => dictSet acc kv.1 (get_transform kv.2))
        images_transform) ∧
    ∀ k v, (k, v) ∈ images →
      dictLookup
          (images.foldl (fun acc kv => dictSet acc kv.1 (get_transform kv.2))
            images_transform) k =
        some (get_transform v) := by
  have hall : images_transform.all
      (fun kv => (images.map Prod.fst).contains kv.1) = true := by
    rw [List.all_eq_true]
    intro kv hkv
    have hm : kv.1 ∈ images.map Prod.fst :=
      hsub kv.1 (List.mem_map.mpr ⟨kv, hkv, rfl⟩)
    exact List.elem_eq_true_of_mem hm
  constructor
  · have hdef : initTransforms images (some images_transform) =
        (if images_transform.all
            (fun kv => (images.map Prod.fst).contains kv.1) = true then
          Except.ok (images.foldl
            (fun acc kv => dictSet acc kv.1 (get_transform kv.2)) images_transform)
        else Except.error "AssertionError") := rfl
    rw [hdef, if_pos hall]
  · intro k v hmem
    exact overwrite_lookup_mem images images_transform k v hnodup hmem

/-- Witness for C10: one image whose payload carries `custom 7` while the
caller supplies `default2d` for the same key; the stored transform is the
payload's `custom 7`. -/
theorem spatialdata_init_overwrites_transforms_witness :
    (([("img", (⟨0, Transform.custom 7⟩ : Payload))].map Prod.fst).Nodup ∧
      ∀ k ∈ [("img", Transform.default2d)].map Prod.fst,
        k ∈ [("img", (⟨0, Transform.custom 7⟩ : Payload))].map Prod.fst) ∧
    (initTransforms [("img", (⟨0, Transform.custom 7⟩ : Payload))]
        (some [("img", Transform.default2d)]) =
      .ok ([("img", (⟨0, Transform.custom 7⟩ : Payload))].foldl
        (fun acc kv => dictSet acc kv.1 (get_transform kv.2))
        [("img", Transform.default2d)]) ∧
    ∀ k v, (k, v) ∈ [("img", (⟨0, Transform.custom 7⟩ : Payload))] →
      dictLookup ([("img", (⟨0, Transform.custom 7⟩ : Payload))].foldl
          (fun acc kv => dictSet acc kv.1 (get_transform kv.2))
          [("img", Transform.default2d)]) k =
        some (get_transform v)) :=
  ⟨⟨by simp, by simp⟩,
    spatialdata_init_overwrites_transforms _ _ (by simp) (by simp)⟩
